import Mathlib

/-!
Verification of the NBSP (non-blocking bidirectional small package protocol)
library, module_nbsp/src/nbsp.h, focused on the inline functions defined in
the header: nbsp_receive_msg, nbsp_received_data, and the UDDW variant
(nbsp_uddw_send, nbsp_uddw_handle_ack, nbsp_uddw_receive).

The channel is modelled by an explicit trace of I/O events: each function
returns, besides its result and updated state, the list of channel events it
performed, in order.  Incoming values (the control token read by `inct`, the
word read by `inuint`) are passed as explicit parameters and recorded in the
trace as input events, so "reads exactly one control token" is the statement
that the trace contains exactly one `inCT` event.  The caller-provided word
buffer is a `List Nat`; machine words are modelled as `Nat` (all arithmetic
performed by these functions is masking with `buffer_mask`, which cannot
overflow 32 bits when the indices are in range, as proved below).
-/

namespace Nbsp

/-- Channel events, in the order the source performs them:
`inCT` models `inct(c)`, `inWord` models `inuint(c)`,
`outCT` models `outct(c, t)`, `outWord` models `outuint(c, w)`. -/
inductive ChanEvent where
  | inCT (t : Nat)
  | inWord (w : Nat)
  | outCT (t : Nat)
  | outWord (w : Nat)
  deriving DecidableEq, Repr

/-- The struct `t_nbsp_state` from nbsp.h. -/
structure NbspState where
  msg_is_ack : Nat
  msg_data : Nat
  words_to_be_acknowledged : Nat
  read_index : Nat
  write_index : Nat
  buffer_mask : Nat
  deriving DecidableEq, Repr

/-- `#define NBSP_CT_DATA 0x5` (smallest free application token). -/
def NBSP_CT_DATA : Nat := 0x5

/-- The platform end-of-transfer control token `XS1_CT_END` (value 0x1 on the
XS1 architecture; external to this repository, only its identity matters
here). -/
def XS1_CT_END : Nat := 0x1

/-- `nbsp_receive_msg(chanend c, t_nbsp_state& state)` from nbsp.h.
`token` is the value returned by `inct(c)`; `dataWord` is the value that
`inuint(c)` would return if called.  Returns the updated state and the
channel-event trace. -/
def nbsp_receive_msg (token dataWord : Nat) (state : NbspState) :
    NbspState × List ChanEvent :=
  if token = NBSP_CT_DATA then
    ({ state with msg_is_ack := 0, msg_data := dataWord },
     [ChanEvent.inCT token, ChanEvent.inWord dataWord])
  else
    ({ state with msg_is_ack := 1 }, [ChanEvent.inCT token])

/-- `nbsp_received_data(t_nbsp_state& state)` from nbsp.h. -/
def nbsp_received_data (state : NbspState) : Nat :=
  state.msg_data

/-- `nbsp_uddw_send(chanend c, t_nbsp_state& state, unsigned buffer[],
unsigned data1, unsigned data2)` from nbsp.h (with the
CHECK_FOR_PROGRAMMING_ERRORS block compiled out, as in the source where the
flag is 0).  Returns the `unsigned` result, the updated state, the updated
buffer and the channel-event trace. -/
def nbsp_uddw_send (state : NbspState) (buffer : List Nat) (data1 data2 : Nat) :
    Nat × NbspState × List Nat × List ChanEvent :=
  if state.words_to_be_acknowledged = 0 then
    (1, { state with words_to_be_acknowledged := 2 }, buffer,
     [ChanEvent.outWord data1, ChanEvent.outWord data2])
  else
    let next_write_index := (state.write_index + 2) &&& state.buffer_mask
    if next_write_index ≠ state.read_index then
      (1, { state with write_index := next_write_index },
       (buffer.set state.write_index data1).set (state.write_index + 1) data2,
       [])
    else
      (0, state, buffer, [])

/-- `nbsp_uddw_handle_ack(chanend c, t_nbsp_state& state, unsigned buffer[])`
from nbsp.h (debug block compiled out).  `token` is the value read by
`inct(c)`.  The buffer is only read, never written, so it is not returned. -/
def nbsp_uddw_handle_ack (token : Nat) (state : NbspState)
    (buffer : List Nat) : NbspState × List ChanEvent :=
  if state.read_index ≠ state.write_index then
    ({ state with read_index := (state.read_index + 2) &&& state.buffer_mask },
     [ChanEvent.inCT token,
      ChanEvent.outWord (buffer.getD state.read_index 0),
      ChanEvent.outWord (buffer.getD (state.read_index + 1) 0)])
  else
    ({ state with words_to_be_acknowledged := 0 },
     [ChanEvent.inCT token])

/-- `nbsp_uddw_receive(chanend c, unsigned& data1, unsigned& data2)` from
nbsp.h.  `w1` and `w2` are the two words read by the two `inuint(c)` calls;
the function stores them into its two reference parameters (modelled as the
returned pair) and emits `XS1_CT_END`.  It takes no `t_nbsp_state` at all. -/
def nbsp_uddw_receive (w1 w2 : Nat) : (Nat × Nat) × List ChanEvent :=
  ((w1, w2),
   [ChanEvent.inWord w1, ChanEvent.inWord w2, ChanEvent.outCT XS1_CT_END])

/-- An operation of the UDDW sender: a call to `nbsp_uddw_send` with the two
data words, or a call to `nbsp_uddw_handle_ack` with the token read from the
channel. -/
inductive UddwOp where
  | send (d1 d2 : Nat)
  | handleAck (token : Nat)
  deriving DecidableEq, Repr

/-- One UDDW sender operation applied to a configuration (state, buffer). -/
def uddwStep (cfg : NbspState × List Nat) (op : UddwOp) :
    NbspState × List Nat :=
  match op with
  | UddwOp.send d1 d2 =>
      let r := nbsp_uddw_send cfg.1 cfg.2 d1 d2
      (r.2.1, r.2.2.1)
  | UddwOp.handleAck t =>
      ((nbsp_uddw_handle_ack t cfg.1 cfg.2).1, cfg.2)

/-- Runs a sequence of UDDW sender operations from a configuration. -/
def uddwRun (cfg : NbspState × List Nat) : List UddwOp → NbspState × List Nat
  | [] => cfg
  | op :: ops => uddwRun (uddwStep cfg op) ops

/-- Holds when every `handleAck` in the sequence occurs at a point where
`words_to_be_acknowledged ≠ 0`. -/
def ackOnlyWhenOutstanding (cfg : NbspState × List Nat) :
    List UddwOp → Bool
  | [] => true
  | op :: ops =>
      (match op with
       | UddwOp.handleAck _ => cfg.1.words_to_be_acknowledged ≠ 0
       | UddwOp.send _ _ => true)
      && ackOnlyWhenOutstanding (uddwStep cfg op) ops

/-- C1: on a state with `words_to_be_acknowledged = 0`, `nbsp_uddw_send`
emits `data1` then `data2` with no leading control token, sets
`words_to_be_acknowledged = 2`, leaves the buffer alone and returns 1; on a
state with `words_to_be_acknowledged ≠ 0` whose buffer is not full, it
stores `data1` at `buffer[write_index]` and `data2` at
`buffer[write_index+1]`, sets `write_index = (write_index + 2) & buffer_mask`,
returns 1 and emits nothing. -/
theorem uddw_send_spec (state : NbspState) (buffer : List Nat)
    (d1 d2 : Nat) :
    (state.words_to_be_acknowledged = 0 →
      nbsp_uddw_send state buffer d1 d2 =
        (1, { state with words_to_be_acknowledged := 2 }, buffer,
         [ChanEvent.outWord d1, ChanEvent.outWord d2])) ∧
    (state.words_to_be_acknowledged ≠ 0 →
      (state.write_index + 2) &&& state.buffer_mask ≠ state.read_index →
      nbsp_uddw_send state buffer d1 d2 =
        (1, { state with
                write_index := (state.write_index + 2) &&& state.buffer_mask },
         (buffer.set state.write_index d1).set (state.write_index + 1) d2,
         [])) := by
  constructor
  · intro h0
    simp [nbsp_uddw_send, h0]
  · intro hne hroom
    simp [nbsp_uddw_send, hne, hroom]

/-- Witness for C1: both branches of `uddw_send_spec` evaluated on concrete
states (idle with mask 3, then busy with one free pair). -/
theorem uddw_send_spec_witness :
    nbsp_uddw_send ⟨0, 0, 0, 0, 0, 3⟩ [0, 0, 0, 0] 7 8 =
      (1, ⟨0, 0, 2, 0, 0, 3⟩, [0, 0, 0, 0],
       [ChanEvent.outWord 7, ChanEvent.outWord 8]) ∧
    nbsp_uddw_send ⟨0, 0, 2, 0, 0, 3⟩ [0, 0, 0, 0] 7 8 =
      (1, ⟨0, 0, 2, 0, 2, 3⟩, [7, 8, 0, 0], []) :=
  ⟨(uddw_send_spec ⟨0, 0, 0, 0, 0, 3⟩ [0, 0, 0, 0] 7 8).1 rfl,
   (uddw_send_spec ⟨0, 0, 2, 0, 0, 3⟩ [0, 0, 0, 0] 7 8).2
     (by decide) (by decide)⟩

/-- C8: `nbsp_uddw_receive` reads two words from the channel, stores the
first in `data1` and the second in `data2`, then emits `XS1_CT_END` back;
it takes no endpoint state (its Lean type has no `NbspState` argument). -/
theorem uddw_receive_spec (w1 w2 : Nat) :
    nbsp_uddw_receive w1 w2 =
      ((w1, w2),
       [ChanEvent.inWord w1, ChanEvent.inWord w2,
        ChanEvent.outCT XS1_CT_END]) := rfl

/-- C2: `nbsp_uddw_handle_ack` first reads exactly one control token (the
trace in both branches consists of the `inCT` event followed only by output
events); when the buffer is non-empty it emits `buffer[read_index]` then
`buffer[read_index+1]`, sets `read_index = (read_index + 2) & buffer_mask`
and leaves `words_to_be_acknowledged` unchanged (so it stays at 2 in UDDW
use); when the buffer is empty it sets `words_to_be_acknowledged = 0` and
emits nothing. -/
theorem uddw_handle_ack_spec (token : Nat) (state : NbspState)
    (buffer : List Nat) :
    (state.read_index ≠ state.write_index →
      nbsp_uddw_handle_ack token state buffer =
        ({ state with
             read_index := (state.read_index + 2) &&& state.buffer_mask },
         [ChanEvent.inCT token,
          ChanEvent.outWord (buffer.getD state.read_index 0),
          ChanEvent.outWord (buffer.getD (state.read_index + 1) 0)]) ∧
      (nbsp_uddw_handle_ack token state buffer).1.words_to_be_acknowledged
        = state.words_to_be_acknowledged) ∧
    (state.read_index = state.write_index →
      nbsp_uddw_handle_ack token state buffer =
        ({ state with words_to_be_acknowledged := 0 },
         [ChanEvent.inCT token])) := by
  constructor
  · intro hne
    simp [nbsp_uddw_handle_ack, hne]
  · intro heq
    simp [nbsp_uddw_handle_ack, heq]

/-- Witness for C2: both branches of `uddw_handle_ack_spec` on concrete
states. -/
theorem uddw_handle_ack_spec_witness :
    nbsp_uddw_handle_ack 1 ⟨0, 0, 2, 0, 2, 3⟩ [7, 8, 0, 0] =
      (⟨0, 0, 2, 2, 2, 3⟩,
       [ChanEvent.inCT 1, ChanEvent.outWord 7, ChanEvent.outWord 8]) ∧
    nbsp_uddw_handle_ack 1 ⟨0, 0, 2, 2, 2, 3⟩ [7, 8, 0, 0] =
      (⟨0, 0, 0, 2, 2, 3⟩, [ChanEvent.inCT 1]) :=
  ⟨((uddw_handle_ack_spec 1 ⟨0, 0, 2, 0, 2, 3⟩ [7, 8, 0, 0]).1
      (by decide)).1,
   (uddw_handle_ack_spec 1 ⟨0, 0, 2, 2, 2, 3⟩ [7, 8, 0, 0]).2 rfl⟩

/-- C4: `nbsp_receive_msg` reads exactly one control token and emits nothing;
when the token is `NBSP_CT_DATA` (0x5) it additionally reads one word,
stores it in `msg_data`, sets `msg_is_ack = 0`, and `nbsp_received_data`
then returns that word; for any other token it sets `msg_is_ack = 1` and
reads no additional word.  Both claims are stated as full trace equalities,
so the absence of output events and of extra input events is part of the
conclusion. -/
theorem receive_msg_spec (token w : Nat) (state : NbspState) :
    (token = NBSP_CT_DATA →
      nbsp_receive_msg token w state =
        ({ state with msg_is_ack := 0, msg_data := w },
         [ChanEvent.inCT token, ChanEvent.inWord w]) ∧
      nbsp_received_data (nbsp_receive_msg token w state).1 = w) ∧
    (token ≠ NBSP_CT_DATA →
      nbsp_receive_msg token w state =
        ({ state with msg_is_ack := 1 }, [ChanEvent.inCT token])) := by
  constructor
  · intro hdat
    simp [nbsp_receive_msg, nbsp_received_data, hdat]
  · intro hnd
    simp [nbsp_receive_msg, hnd]

/-- Witness for C4: both branches of `receive_msg_spec` evaluated at the
data token 0x5 and at the end-of-transfer token 1. -/
theorem receive_msg_spec_witness :
    (nbsp_receive_msg 5 42 ⟨0, 0, 0, 0, 0, 3⟩ =
       (⟨0, 42, 0, 0, 0, 3⟩, [ChanEvent.inCT 5, ChanEvent.inWord 42]) ∧
     nbsp_received_data (nbsp_receive_msg 5 42 ⟨0, 0, 0, 0, 0, 3⟩).1 = 42) ∧
    nbsp_receive_msg 1 42 ⟨0, 99, 0, 0, 0, 3⟩ =
      (⟨1, 99, 0, 0, 0, 3⟩, [ChanEvent.inCT 1]) :=
  ⟨(receive_msg_spec 5 42 ⟨0, 0, 0, 0, 0, 3⟩).1 rfl,
   (receive_msg_spec 1 42 ⟨0, 99, 0, 0, 0, 3⟩).2 (by decide)⟩

/-- C10: `nbsp_receive_msg` modifies only `msg_is_ack` and (for a data
token) `msg_data`: `words_to_be_acknowledged`, `read_index`, `write_index`
and `buffer_mask` are unchanged by every call, and when the token is not
`NBSP_CT_DATA`, `msg_data` keeps its previous value. -/
theorem receive_msg_frame (token w : Nat) (state : NbspState) :
    (nbsp_receive_msg token w state).1.words_to_be_acknowledged
      = state.words_to_be_acknowledged ∧
    (nbsp_receive_msg token w state).1.read_index = state.read_index ∧
    (nbsp_receive_msg token w state).1.write_index = state.write_index ∧
    (nbsp_receive_msg token w state).1.buffer_mask = state.buffer_mask ∧
    (token ≠ NBSP_CT_DATA →
      (nbsp_receive_msg token w state).1.msg_data = state.msg_data) := by
  unfold nbsp_receive_msg
  by_cases hdat : token = NBSP_CT_DATA
  · simp [hdat, NBSP_CT_DATA]
  · simp [hdat]

/-- Witness for C10: `receive_msg_frame` at token 1 (an ack), showing
`msg_data` and all protocol fields survive. -/
theorem receive_msg_frame_witness :
    (nbsp_receive_msg 1 42 ⟨0, 99, 2, 4, 6, 7⟩).1.words_to_be_acknowledged
      = 2 ∧
    (nbsp_receive_msg 1 42 ⟨0, 99, 2, 4, 6, 7⟩).1.read_index = 4 ∧
    (nbsp_receive_msg 1 42 ⟨0, 99, 2, 4, 6, 7⟩).1.write_index = 6 ∧
    (nbsp_receive_msg 1 42 ⟨0, 99, 2, 4, 6, 7⟩).1.buffer_mask = 7 ∧
    (nbsp_receive_msg 1 42 ⟨0, 99, 2, 4, 6, 7⟩).1.msg_data = 99 :=
  have h := receive_msg_frame 1 42 ⟨0, 99, 2, 4, 6, 7⟩
  ⟨h.1, h.2.1, h.2.2.1, h.2.2.2.1, h.2.2.2.2 (by decide)⟩

/-- C5: `nbsp_uddw_send` returns 0 iff `words_to_be_acknowledged ≠ 0` and
`(write_index + 2) & buffer_mask = read_index` (buffer full); in that case
the whole result is `(0, state, buffer, [])`: no channel output, every state
field and every buffer element unchanged, the data pair dropped. -/
theorem uddw_send_full_spec (state : NbspState) (buffer : List Nat)
    (d1 d2 : Nat) :
    ((nbsp_uddw_send state buffer d1 d2).1 = 0 ↔
      state.words_to_be_acknowledged ≠ 0 ∧
      (state.write_index + 2) &&& state.buffer_mask = state.read_index) ∧
    ((nbsp_uddw_send state buffer d1 d2).1 = 0 →
      nbsp_uddw_send state buffer d1 d2 = (0, state, buffer, [])) := by
  unfold nbsp_uddw_send
  by_cases h0 : state.words_to_be_acknowledged = 0
  · simp [h0]
  · by_cases hf : (state.write_index + 2) &&& state.buffer_mask
        = state.read_index
    · simp [h0, hf]
    · simp [h0, hf]

/-- Witness for C5: `uddw_send_full_spec` at a full concrete state
(mask 3, one pair in flight, one pair buffered): the call returns 0 and
changes nothing. -/
theorem uddw_send_full_spec_witness :
    (nbsp_uddw_send ⟨0, 0, 2, 0, 2, 3⟩ [7, 8, 0, 0] 5 6).1 = 0 ∧
    nbsp_uddw_send ⟨0, 0, 2, 0, 2, 3⟩ [7, 8, 0, 0] 5 6 =
      (0, ⟨0, 0, 2, 0, 2, 3⟩, [7, 8, 0, 0], []) :=
  have h := uddw_send_full_spec ⟨0, 0, 2, 0, 2, 3⟩ [7, 8, 0, 0] 5 6
  have hz : (nbsp_uddw_send ⟨0, 0, 2, 0, 2, 3⟩ [7, 8, 0, 0] 5 6).1 = 0 :=
    h.1.mpr (by decide)
  ⟨hz, h.2 hz⟩

/-- C7: from the initial state for `buffer_size = 4` (mask 3, everything
else 0) with a zeroed buffer: `uddw_send(1,2)` returns 1 and puts 1 then 2
on the wire; `uddw_send(3,4)` returns 1 with no channel output (buffered);
`uddw_send(5,6)` returns 0; the following `uddw_handle_ack` emits 3 then 4
and leaves the buffer empty (`read_index = write_index`). -/
theorem uddw_scenario_buffer4 :
    (nbsp_uddw_send ⟨0, 0, 0, 0, 0, 3⟩ [0, 0, 0, 0] 1 2).1 = 1 ∧
    (nbsp_uddw_send ⟨0, 0, 0, 0, 0, 3⟩ [0, 0, 0, 0] 1 2).2.2.2
      = [ChanEvent.outWord 1, ChanEvent.outWord 2] ∧
    (nbsp_uddw_send ⟨0, 0, 2, 0, 0, 3⟩ [0, 0, 0, 0] 3 4).1 = 1 ∧
    (nbsp_uddw_send ⟨0, 0, 2, 0, 0, 3⟩ [0, 0, 0, 0] 3 4).2.2.2 = [] ∧
    nbsp_uddw_send ⟨0, 0, 0, 0, 0, 3⟩ [0, 0, 0, 0] 1 2
      = (1, ⟨0, 0, 2, 0, 0, 3⟩, [0, 0, 0, 0],
         [ChanEvent.outWord 1, ChanEvent.outWord 2]) ∧
    nbsp_uddw_send ⟨0, 0, 2, 0, 0, 3⟩ [0, 0, 0, 0] 3 4
      = (1, ⟨0, 0, 2, 0, 2, 3⟩, [3, 4, 0, 0], []) ∧
    (nbsp_uddw_send ⟨0, 0, 2, 0, 2, 3⟩ [3, 4, 0, 0] 5 6).1 = 0 ∧
    nbsp_uddw_handle_ack 1 ⟨0, 0, 2, 0, 2, 3⟩ [3, 4, 0, 0]
      = (⟨0, 0, 2, 2, 2, 3⟩,
         [ChanEvent.inCT 1, ChanEvent.outWord 3, ChanEvent.outWord 4]) ∧
    (nbsp_uddw_handle_ack 1 ⟨0, 0, 2, 0, 2, 3⟩ [3, 4, 0, 0]).1.read_index
      = (nbsp_uddw_handle_ack 1 ⟨0, 0, 2, 0, 2, 3⟩
          [3, 4, 0, 0]).1.write_index := by
  decide

/-- One step preserves `words_to_be_acknowledged ∈ {0, 2}`: a send from 0
sets it to 2, every other branch leaves it alone or resets it to 0. -/
theorem uddwStep_wta_zero_or_two (cfg : NbspState × List Nat) (op : UddwOp)
    (h : cfg.1.words_to_be_acknowledged = 0 ∨
      cfg.1.words_to_be_acknowledged = 2) :
    (uddwStep cfg op).1.words_to_be_acknowledged = 0 ∨
      (uddwStep cfg op).1.words_to_be_acknowledged = 2 := by
  cases op with
  | send d1 d2 =>
    unfold uddwStep nbsp_uddw_send
    by_cases h0 : cfg.1.words_to_be_acknowledged = 0
    · simp [h0]
    · by_cases hroom : (cfg.1.write_index + 2) &&& cfg.1.buffer_mask
          ≠ cfg.1.read_index
      · simpa [h0, hroom] using h
      · simpa [h0, hroom] using h
  | handleAck t =>
    unfold uddwStep nbsp_uddw_handle_ack
    by_cases hne : cfg.1.read_index ≠ cfg.1.write_index
    · simpa [hne] using h
    · simp [hne]

/-- A whole run preserves `words_to_be_acknowledged ∈ {0, 2}`. -/
theorem uddwRun_wta_zero_or_two (ops : List UddwOp)
    (cfg : NbspState × List Nat)
    (h : cfg.1.words_to_be_acknowledged = 0 ∨
      cfg.1.words_to_be_acknowledged = 2) :
    (uddwRun cfg ops).1.words_to_be_acknowledged = 0 ∨
      (uddwRun cfg ops).1.words_to_be_acknowledged = 2 := by
  induction ops generalizing cfg with
  | nil => exact h
  | cons op ops ih => exact ih _ (uddwStep_wta_zero_or_two cfg op h)

/-- C3: for every sequence of UDDW sender operations from the initial state
(`words_to_be_acknowledged = 0`, `read_index = write_index = 0`) in which
every `handleAck` occurs only while `words_to_be_acknowledged ≠ 0`, the
value of `words_to_be_acknowledged` at every operation boundary (i.e. after
every prefix `l₁` of the sequence) is 0 or 2. -/
theorem uddw_wta_invariant (state : NbspState) (buffer : List Nat)
    (ops l₁ l₂ : List UddwOp)
    (h0 : state.words_to_be_acknowledged = 0)
    (hr : state.read_index = 0) (hw : state.write_index = 0)
    (hv : ackOnlyWhenOutstanding (state, buffer) ops = true)
    (hsplit : ops = l₁ ++ l₂) :
    (uddwRun (state, buffer) l₁).1.words_to_be_acknowledged = 0 ∨
      (uddwRun (state, buffer) l₁).1.words_to_be_acknowledged = 2 :=
  uddwRun_wta_zero_or_two l₁ (state, buffer) (Or.inl h0)

/-- Witness for C3: a concrete valid run (two sends, two acks) from the
initial state with mask 3, checked at the boundary after the first three
operations. -/
theorem uddw_wta_invariant_witness :
    ackOnlyWhenOutstanding (⟨0, 0, 0, 0, 0, 3⟩, [0, 0, 0, 0])
      [UddwOp.send 1 2, UddwOp.send 3 4,
       UddwOp.handleAck 1, UddwOp.handleAck 1] = true ∧
    ((uddwRun (⟨0, 0, 0, 0, 0, 3⟩, [0, 0, 0, 0])
        [UddwOp.send 1 2, UddwOp.send 3 4,
         UddwOp.handleAck 1]).1.words_to_be_acknowledged = 0 ∨
     (uddwRun (⟨0, 0, 0, 0, 0, 3⟩, [0, 0, 0, 0])
        [UddwOp.send 1 2, UddwOp.send 3 4,
         UddwOp.handleAck 1]).1.words_to_be_acknowledged = 2) :=
  ⟨by decide,
   uddw_wta_invariant ⟨0, 0, 0, 0, 0, 3⟩ [0, 0, 0, 0]
     [UddwOp.send 1 2, UddwOp.send 3 4,
      UddwOp.handleAck 1, UddwOp.handleAck 1]
     [UddwOp.send 1 2, UddwOp.send 3 4, UddwOp.handleAck 1]
     [UddwOp.handleAck 1] rfl rfl rfl (by decide) rfl⟩

/-- One step preserves "buffer empty or a pair outstanding". -/
theorem uddwStep_empty_or_outstanding (cfg : NbspState × List Nat)
    (op : UddwOp)
    (h : cfg.1.read_index = cfg.1.write_index ∨
      cfg.1.words_to_be_acknowledged ≠ 0) :
    (uddwStep cfg op).1.read_index = (uddwStep cfg op).1.write_index ∨
      (uddwStep cfg op).1.words_to_be_acknowledged ≠ 0 := by
  cases op with
  | send d1 d2 =>
    unfold uddwStep nbsp_uddw_send
    by_cases h0 : cfg.1.words_to_be_acknowledged = 0
    · simp [h0]
    · by_cases hroom : (cfg.1.write_index + 2) &&& cfg.1.buffer_mask
          ≠ cfg.1.read_index
      · simp [h0, hroom]
      · simpa [h0, hroom] using h
  | handleAck t =>
    unfold uddwStep nbsp_uddw_handle_ack
    by_cases hne : cfg.1.read_index ≠ cfg.1.write_index
    · rcases h with h | h
      · exact absurd h hne
      · simp [hne, h]
    · simp [hne]
      exact not_not.mp hne

/-- A whole run preserves "buffer empty or a pair outstanding". -/
theorem uddwRun_empty_or_outstanding (ops : List UddwOp)
    (cfg : NbspState × List Nat)
    (h : cfg.1.read_index = cfg.1.write_index ∨
      cfg.1.words_to_be_acknowledged ≠ 0) :
    (uddwRun cfg ops).1.read_index = (uddwRun cfg ops).1.write_index ∨
      (uddwRun cfg ops).1.words_to_be_acknowledged ≠ 0 := by
  induction ops generalizing cfg with
  | nil => exact h
  | cons op ops ih => exact ih _ (uddwStep_empty_or_outstanding cfg op h)

/-- C6: for every sequence of UDDW sender operations from the initial state
(`words_to_be_acknowledged = 0`, `read_index = write_index = 0`), at every
operation boundary a non-empty buffer (`read_index ≠ write_index`) implies
`words_to_be_acknowledged > 0`. -/
theorem uddw_nonempty_implies_outstanding (state : NbspState)
    (buffer : List Nat) (ops l₁ l₂ : List UddwOp)
    (h0 : state.words_to_be_acknowledged = 0)
    (hr : state.read_index = 0) (hw : state.write_index = 0)
    (hsplit : ops = l₁ ++ l₂) :
    (uddwRun (state, buffer) l₁).1.read_index
        ≠ (uddwRun (state, buffer) l₁).1.write_index →
      0 < (uddwRun (state, buffer) l₁).1.words_to_be_acknowledged := by
  intro hne
  have h := uddwRun_empty_or_outstanding l₁ (state, buffer)
    (Or.inl (by rw [hr, hw]))
  rcases h with h | h
  · exact absurd h hne
  · omega

/-- Witness for C6: after `send(1,2); send(3,4)` from the initial state with
mask 3 the buffer is non-empty, and the invariant instance gives
`words_to_be_acknowledged > 0` there. -/
theorem uddw_nonempty_implies_outstanding_witness :
    (uddwRun (⟨0, 0, 0, 0, 0, 3⟩, [0, 0, 0, 0])
        [UddwOp.send 1 2, UddwOp.send 3 4]).1.read_index
      ≠ (uddwRun (⟨0, 0, 0, 0, 0, 3⟩, [0, 0, 0, 0])
          [UddwOp.send 1 2, UddwOp.send 3 4]).1.write_index ∧
    0 < (uddwRun (⟨0, 0, 0, 0, 0, 3⟩, [0, 0, 0, 0])
          [UddwOp.send 1 2, UddwOp.send 3 4]).1.words_to_be_acknowledged :=
  ⟨by decide,
   uddw_nonempty_implies_outstanding ⟨0, 0, 0, 0, 0, 3⟩ [0, 0, 0, 0]
     [UddwOp.send 1 2, UddwOp.send 3 4]
     [UddwOp.send 1 2, UddwOp.send 3 4] [] rfl rfl rfl rfl (by decide)⟩

/-- Advancing an even index by 2 modulo `2^k` (the effect of masking with
`buffer_mask = 2^k - 1`) yields an even index below `2^k`. -/
theorem mod_step_even_lt (k x : Nat) (hk : 1 ≤ k) (hx2 : x % 2 = 0) :
    ((x + 2) % 2 ^ k) % 2 = 0 ∧ (x + 2) % 2 ^ k < 2 ^ k := by
  refine ⟨?_, Nat.mod_lt _ (Nat.two_pow_pos k)⟩
  have h2 : (2 : Nat) ∣ 2 ^ k := dvd_pow_self 2 (by omega)
  have hx : (2 : Nat) ∣ x + 2 := by omega
  have hmod : (2 : Nat) ∣ (x + 2) % 2 ^ k := (Nat.dvd_mod_iff h2).mpr hx
  omega

/-- One step keeps the mask at `2^k - 1` and both indices even and below
`2^k`. -/
theorem uddwStep_index_inv (k : Nat) (cfg : NbspState × List Nat)
    (op : UddwOp) (hk : 1 ≤ k)
    (hmask : cfg.1.buffer_mask = 2 ^ k - 1)
    (hr2 : cfg.1.read_index % 2 = 0) (hrlt : cfg.1.read_index < 2 ^ k)
    (hw2 : cfg.1.write_index % 2 = 0) (hwlt : cfg.1.write_index < 2 ^ k) :
    (uddwStep cfg op).1.buffer_mask = 2 ^ k - 1 ∧
    ((uddwStep cfg op).1.read_index % 2 = 0 ∧
     (uddwStep cfg op).1.read_index < 2 ^ k) ∧
    ((uddwStep cfg op).1.write_index % 2 = 0 ∧
     (uddwStep cfg op).1.write_index < 2 ^ k) := by
  cases op with
  | send d1 d2 =>
    unfold uddwStep nbsp_uddw_send
    simp only [hmask, Nat.and_pow_two_sub_one_eq_mod]
    by_cases h0 : cfg.1.words_to_be_acknowledged = 0
    · simp [h0, hmask, hr2, hrlt, hw2, hwlt]
    · by_cases heq : (cfg.1.write_index + 2) % 2 ^ k = cfg.1.read_index
      · simp [h0, heq, hmask, hr2, hrlt, hw2, hwlt]
      · have hstep := mod_step_even_lt k cfg.1.write_index hk hw2
        simp [h0, heq, hmask, hr2, hrlt]
        exact hstep
  | handleAck t =>
    unfold uddwStep nbsp_uddw_handle_ack
    simp only [hmask, Nat.and_pow_two_sub_one_eq_mod]
    by_cases hne : cfg.1.read_index ≠ cfg.1.write_index
    · have hstep := mod_step_even_lt k cfg.1.read_index hk hr2
      simp [hne, hmask, hw2, hwlt]
      exact hstep
    · simp [hne, hmask, hr2, hrlt, hw2, hwlt]

/-- A whole run keeps the mask at `2^k - 1` and both indices even and below
`2^k`. -/
theorem uddwRun_index_inv (k : Nat) (ops : List UddwOp)
    (cfg : NbspState × List Nat) (hk : 1 ≤ k)
    (hmask : cfg.1.buffer_mask = 2 ^ k - 1)
    (hr2 : cfg.1.read_index % 2 = 0) (hrlt : cfg.1.read_index < 2 ^ k)
    (hw2 : cfg.1.write_index % 2 = 0) (hwlt : cfg.1.write_index < 2 ^ k) :
    (uddwRun cfg ops).1.buffer_mask = 2 ^ k - 1 ∧
    ((uddwRun cfg ops).1.read_index % 2 = 0 ∧
     (uddwRun cfg ops).1.read_index < 2 ^ k) ∧
    ((uddwRun cfg ops).1.write_index % 2 = 0 ∧
     (uddwRun cfg ops).1.write_index < 2 ^ k) := by
  induction ops generalizing cfg with
  | nil => exact ⟨hmask, ⟨hr2, hrlt⟩, hw2, hwlt⟩
  | cons op ops ih =>
    have h := uddwStep_index_inv k cfg op hk hmask hr2 hrlt hw2 hwlt
    exact ih _ h.1 h.2.1.1 h.2.1.2 h.2.2.1 h.2.2.2

/-- C9: for every sequence of UDDW sender operations from a state
initialised for a power-of-two `buffer_size = 2^k ≥ 2`
(`buffer_mask = 2^k - 1`, `read_index = write_index = 0`), at every
operation boundary both indices are even and both `index` and `index + 1`
are below `buffer_size`, so every buffer access these operations perform
(`write_index`, `write_index + 1` in `nbsp_uddw_send`; `read_index`,
`read_index + 1` in `nbsp_uddw_handle_ack`) is inside the caller-provided
array of length `buffer_size`; in particular no pair straddles the wrap
point. -/
theorem uddw_index_bounds (state : NbspState) (buffer : List Nat)
    (k : Nat) (ops l₁ l₂ : List UddwOp) (hk : 1 ≤ k)
    (hmask : state.buffer_mask = 2 ^ k - 1)
    (hr : state.read_index = 0) (hw : state.write_index = 0)
    (hsplit : ops = l₁ ++ l₂) :
    ((uddwRun (state, buffer) l₁).1.read_index % 2 = 0 ∧
     (uddwRun (state, buffer) l₁).1.read_index + 1 < 2 ^ k) ∧
    ((uddwRun (state, buffer) l₁).1.write_index % 2 = 0 ∧
     (uddwRun (state, buffer) l₁).1.write_index + 1 < 2 ^ k) := by
  have h := uddwRun_index_inv k l₁ (state, buffer) hk hmask
    (by rw [hr]) (by rw [hr]; exact Nat.two_pow_pos k)
    (by rw [hw]) (by rw [hw]; exact Nat.two_pow_pos k)
  have h2 : (2 : Nat) ∣ 2 ^ k := dvd_pow_self 2 (by omega)
  obtain ⟨m, hm⟩ := h2
  refine ⟨⟨h.2.1.1, ?_⟩, h.2.2.1, ?_⟩
  · have := h.2.1
    omega
  · have := h.2.2
    omega

/-- Witness for C9: the bounds after the prefix
`send(1,2); send(3,4); handleAck` of a run with `buffer_size = 4`
(`k = 2`). -/
theorem uddw_index_bounds_witness :
    ((uddwRun (⟨0, 0, 0, 0, 0, 3⟩, [0, 0, 0, 0])
        [UddwOp.send 1 2, UddwOp.send 3 4,
         UddwOp.handleAck 1]).1.read_index % 2 = 0 ∧
     (uddwRun (⟨0, 0, 0, 0, 0, 3⟩, [0, 0, 0, 0])
        [UddwOp.send 1 2, UddwOp.send 3 4,
         UddwOp.handleAck 1]).1.read_index + 1 < 2 ^ 2) ∧
    ((uddwRun (⟨0, 0, 0, 0, 0, 3⟩, [0, 0, 0, 0])
        [UddwOp.send 1 2, UddwOp.send 3 4,
         UddwOp.handleAck 1]).1.write_index % 2 = 0 ∧
     (uddwRun (⟨0, 0, 0, 0, 0, 3⟩, [0, 0, 0, 0])
        [UddwOp.send 1 2, UddwOp.send 3 4,
         UddwOp.handleAck 1]).1.write_index + 1 < 2 ^ 2) :=
  uddw_index_bounds ⟨0, 0, 0, 0, 0, 3⟩ [0, 0, 0, 0] 2
    [UddwOp.send 1 2, UddwOp.send 3 4, UddwOp.handleAck 1]
    [UddwOp.send 1 2, UddwOp.send 3 4, UddwOp.handleAck 1] []
    (by decide) rfl rfl rfl rfl

end Nbsp
